import Mathlib

/-!
Shallow embedding of the stat-update and scoring engine of
`src/blueshirt/app.py` (the Blue Shirt life-simulation demo).

A Python dict of stats is modelled as an association list
`List (String × Int)` with first-match lookup; `setKey` updates the
first occurrence in place and appends a fresh key at the end, matching
Python's insertion-order dict semantics.

The source's `clamp(v, lo=0, hi=100) = max(lo, min(hi, int(round(v))))`
is only ever called with the default bounds.  On integer arguments
`round` is the identity, so `clamp` on integers is `max 0 (min 100 v)`.
`compute_lifestyle_stability` is the one call site that hands `clamp` a
float: `positive_sum / 5.0 - stress * 0.5`, an exact multiple of 1/10.
Writing `N = 2 * positive_sum - 5 * stress` (so the value is `N / 10`),
Python's banker's rounding of that value is `roundTenths N` below:
when the value is an exact half, `positive_sum` is divisible by 5 and
`stress` is odd, so both float operands are exact and `round` ties to
even; otherwise the value is at least 1/10 away from every tie point
and the float evaluation error (a few ulps) cannot move it across a
rounding boundary.
-/

namespace BlueShirt

/-- A Python dict of stats: association list, first binding wins. -/
abbrev Stats := List (String × Int)

/-- Dict lookup (`d[k]` / `d.get(k)`): first matching key. -/
def getKey {α : Type} : List (String × α) → String → Option α
  | [], _ => none
  | (k', v) :: rest, k => if k = k' then some v else getKey rest k

/-- Dict write `d[k] = v`: replace the first binding of `k` in place,
or append a new binding at the end (Python insertion order). -/
def setKey : Stats → String → Int → Stats
  | [], k, v => [(k, v)]
  | (k', v') :: rest, k, v =>
      if k = k' then (k, v) :: rest else (k', v') :: setKey rest k v

/-- `clamp` from the source, with its default bounds 0 and 100
(the only bounds it is ever called with); see the header comment
for the treatment of `int(round(v))`. -/
def clamp (v : Int) : Int := max 0 (min 100 v)

/-- Python's `round` (banker's rounding, ties to even) applied to the
exact rational `n / 10`. -/
def roundTenths (n : Int) : Int :=
  if n % 10 < 5 then n / 10
  else if 5 < n % 10 then n / 10 + 1
  else if (n / 10) % 2 = 0 then n / 10
  else n / 10 + 1

/-- `DEFAULT_STATS` from the source. -/
def DEFAULT_STATS : Stats :=
  [("Sleep", 80), ("Energy", 80), ("Hunger", 50),
   ("Stress", 20), ("Routine", 70), ("Social", 50)]

/-- `ACTIONS` from the source: name and effect map of each of the six
catalog actions, in source order. -/
def ACTIONS : List (String × List (String × Int)) :=
  [("Sleep (Nap / Sleep)", [("Sleep", 20), ("Energy", 25), ("Stress", -12)]),
   ("Eat (Meal / Snack)", [("Hunger", 35), ("Energy", 6), ("Stress", -4)]),
   ("Exercise (Light)", [("Energy", -15), ("Stress", -8), ("Routine", 4), ("Social", 1)]),
   ("Socialize", [("Social", 18), ("Stress", -6), ("Routine", 2)]),
   ("Study / Work", [("Routine", 6), ("Stress", 6), ("Energy", -8)]),
   ("Leisure (Relax)", [("Stress", -10), ("Energy", 6), ("Routine", 1)])]

/-- `BUDDY_MESSAGES` from the source. -/
def BUDDY_MESSAGES : List (String × String) :=
  [("all_good", "You're balanced today — little nudges keep the momentum. Nice."),
   ("low_energy", "Low energy detected. A short nap or a gentle walk could help."),
   ("hungry", "Stomach says hello. A small snack will level you up."),
   ("high_stress", "Breathing break? Two deep breaths and a mini leisure session."),
   ("low_routine", "A tiny checklist today will boost Routine and ease future days."),
   ("low_social", "Ping a friend or say hi — even a 'hey' helps Social currency."),
   ("burnout", "You're looking drained. Take a proper rest — screens off, real rest on.")]

/-- `BUDDY_MESSAGES[key]`; every key used by the source is present. -/
def msg (k : String) : String := (getKey BUDDY_MESSAGES k).getD ""

/-- `compute_lifestyle_stability` from the source: each of the six
stats is read with default 50 and clamped, the five positive stats are
averaged, half of Stress is subtracted, and the result is clamped
(the division and Python rounding are the `roundTenths` of the exact
value in tenths; see the header comment). -/
def compute_lifestyle_stability (stats : Stats) : Int :=
  let s := fun k => clamp ((getKey stats k).getD 50)
  let positive_sum :=
    s "Sleep" + s "Energy" + s "Hunger" + s "Routine" + s "Social"
  let stress_penalty := s "Stress"
  clamp (roundTenths (2 * positive_sum - 5 * stress_penalty))

/-- `get_life_rank` from the source. -/
def get_life_rank (stability : Int) : String :=
  if stability ≥ 90 then "🟢 Balanced"
  else if stability ≥ 70 then "🟡 Stable"
  else if stability ≥ 50 then "🟠 Unsettled"
  else if stability ≥ 30 then "🔴 Strained"
  else "⚫ Burned Out"

/-- One iteration of the effects loop in `apply_action`: if the stat is
missing it is first inserted with value 50, then the delta is applied
and the result clamped.  After the insertion the key is certainly
present, so the `getD 0` read never falls back to its default. -/
def applyOne (s : Stats) (k : String) (d : Int) : Stats :=
  let s1 := if (getKey s k).isSome then s else setKey s k 50
  setKey s1 k (clamp ((getKey s1 k).getD 0 + d))

/-- The `for stat, delta in action["effects"].items()` loop of
`apply_action`, folded left over the effect map in source order. -/
def applyEffects (stats : Stats) (effects : List (String × Int)) : Stats :=
  effects.foldl (fun s p => applyOne s p.1 p.2) stats

/-- `apply_action` from the source: look the name up in `ACTIONS`
(first match, as the `next(...)` generator does); unknown names return
the stats unchanged; otherwise fold the effect map over the stats. -/
def apply_action (stats : Stats) (action_name : String) : Stats :=
  match getKey ACTIONS action_name with
  | none => stats
  | some effects => applyEffects stats effects

/-- `passive_time_advance` from the source.  The Python reads
`stats["Hunger"]` etc. with bracket lookup, which raises `KeyError`
when the key is absent; a missing read is modelled as `none`. -/
def passive_time_advance (stats : Stats) (phase : String) : Option Stats :=
  if phase = "Day" then
    match getKey stats "Hunger" with
    | none => none
    | some h =>
      let s1 := setKey stats "Hunger" (clamp (h - 12))
      match getKey s1 "Energy" with
      | none => none
      | some e =>
        let s2 := setKey s1 "Energy" (clamp (e - 10))
        match getKey s2 "Stress" with
        | none => none
        | some t => some (setKey s2 "Stress" (clamp (t + 4)))
  else if phase = "Evening" then
    match getKey stats "Hunger" with
    | none => none
    | some h =>
      let s1 := setKey stats "Hunger" (clamp (h - 18))
      match getKey s1 "Energy" with
      | none => none
      | some e =>
        let s2 := setKey s1 "Energy" (clamp (e - 16))
        match getKey s2 "Stress" with
        | none => none
        | some t => some (setKey s2 "Stress" (clamp (t + 6)))
  else if phase = "Night" then
    match getKey stats "Hunger" with
    | none => none
    | some h =>
      let s1 := setKey stats "Hunger" (clamp (h - 8))
      match getKey s1 "Energy" with
      | none => none
      | some e =>
        let s2 := setKey s1 "Energy" (clamp (e - 8))
        match getKey s2 "Stress" with
        | none => none
        | some t => some (setKey s2 "Stress" (clamp (t + 2)))
  else if phase = "Morning" then
    match getKey stats "Energy" with
    | none => none
    | some e =>
      let s1 := setKey stats "Energy" (clamp (e + 4))
      match getKey s1 "Stress" with
      | none => none
      | some t => some (setKey s1 "Stress" (clamp (t - 2)))
  else some stats

/-- `buddy_suggestion` from the source: the priority chain, reading
each stat with bracket lookup only when all earlier checks failed. -/
def buddy_suggestion (stats : Stats) (stability : Int) : Option String :=
  if stability < 30 then some (msg "burnout")
  else match getKey stats "Hunger" with
    | none => none
    | some h =>
      if h < 30 then some (msg "hungry")
      else match getKey stats "Energy" with
        | none => none
        | some e =>
          if e < 35 then some (msg "low_energy")
          else match getKey stats "Stress" with
            | none => none
            | some t =>
              if t > 70 then some (msg "high_stress")
              else match getKey stats "Routine" with
                | none => none
                | some r =>
                  if r < 40 then some (msg "low_routine")
                  else match getKey stats "Social" with
                    | none => none
                    | some so =>
                      if so < 30 then some (msg "low_social")
                      else some (msg "all_good")

/-- Every value bound in the stat vector lies in [0, 100]
(the StatVector invariant of the data model). -/
def InRange (s : Stats) : Prop := ∀ p ∈ s, 0 ≤ p.2 ∧ p.2 ≤ 100

instance (s : Stats) : Decidable (InRange s) := by
  unfold InRange; infer_instance

/-- The keys an effect map mentions. -/
def keysOf (effects : List (String × Int)) : List String := effects.map Prod.fst

/-- The scoring formula as the specification words it: the average of
Sleep, Energy, Hunger, Routine and Social minus half of Stress, with
any missing stat key defaulting to 50 before averaging, clamped to an
integer in [0, 100].  The exact value `Σ/5 − Stress/2` equals
`(2Σ − 5·Stress)/10`, written here in tenths and rounded the way the
rest of the development rounds; unlike the source, the present stat
values themselves are not clamped first. -/
def computeStabilitySpec (stats : Stats) : Int :=
  let g := fun k => (getKey stats k).getD 50
  clamp (roundTenths
    (2 * (g "Sleep" + g "Energy" + g "Hunger" + g "Routine" + g "Social")
      - 5 * g "Stress"))

/-! Basic lemmas about the dict model. -/

theorem getKey_setKey (s : Stats) (k : String) (v : Int) (k' : String) :
    getKey (setKey s k v) k' = if k' = k then some v else getKey s k' := by
  induction s with
  | nil =>
    simp only [setKey, getKey]
  | cons p rest ih =>
    obtain ⟨pk, pv⟩ := p
    simp only [setKey]
    by_cases hk : k = pk
    · subst hk
      rw [if_pos rfl]
      simp only [getKey]
      split_ifs <;> rfl
    · rw [if_neg hk]
      simp only [getKey, ih]
      split_ifs <;> simp_all

theorem getKey_setKey_self (s : Stats) (k : String) (v : Int) :
    getKey (setKey s k v) k = some v := by
  rw [getKey_setKey, if_pos rfl]

theorem getKey_setKey_ne (s : Stats) (k : String) (v : Int) (k' : String)
    (h : k' ≠ k) : getKey (setKey s k v) k' = getKey s k' := by
  rw [getKey_setKey, if_neg h]

theorem getKey_mem (s : Stats) (k : String) (v : Int)
    (h : getKey s k = some v) : (k, v) ∈ s := by
  induction s with
  | nil => simp [getKey] at h
  | cons p rest ih =>
    obtain ⟨pk, pv⟩ := p
    simp only [getKey] at h
    by_cases hk : k = pk
    · rw [if_pos hk] at h
      subst hk
      cases h
      exact List.mem_cons_self _ _
    · rw [if_neg hk] at h
      exact List.mem_cons_of_mem _ (ih h)

theorem mem_setKey (s : Stats) (k : String) (v : Int) (p : String × Int)
    (h : p ∈ setKey s k v) : p = (k, v) ∨ p ∈ s := by
  induction s with
  | nil =>
    simp only [setKey] at h
    cases h with
    | head => exact Or.inl rfl
    | tail _ h => cases h
  | cons q rest ih =>
    obtain ⟨qk, qv⟩ := q
    simp only [setKey] at h
    by_cases hk : k = qk
    · rw [if_pos hk] at h
      cases h with
      | head => exact Or.inl rfl
      | tail _ h => exact Or.inr (List.mem_cons_of_mem _ h)
    · rw [if_neg hk] at h
      cases h with
      | head => exact Or.inr (List.mem_cons_self _ _)
      | tail _ h =>
        cases ih h with
        | inl h => exact Or.inl h
        | inr h => exact Or.inr (List.mem_cons_of_mem _ h)

theorem getKey_eq_none_of_forall_ne {α : Type} (l : List (String × α))
    (k : String) (h : ∀ p ∈ l, p.1 ≠ k) : getKey l k = none := by
  induction l with
  | nil => rfl
  | cons p rest ih =>
    obtain ⟨pk, pv⟩ := p
    simp only [getKey]
    rw [if_neg (fun hk => h (pk, pv) (List.mem_cons_self _ _) hk.symm)]
    exact ih fun q hq => h q (List.mem_cons_of_mem _ hq)

/-! Lemmas about clamp and rounding. -/

theorem clamp_range (v : Int) : 0 ≤ clamp v ∧ clamp v ≤ 100 := by
  unfold clamp
  constructor
  · exact le_max_left 0 _
  · exact max_le (by norm_num) (min_le_left 100 v)

theorem clamp_eq_self (v : Int) (h0 : 0 ≤ v) (h1 : v ≤ 100) : clamp v = v := by
  unfold clamp
  rw [min_eq_right h1, max_eq_right h0]

theorem clamp_mono {a b : Int} (h : a ≤ b) : clamp a ≤ clamp b :=
  max_le_max (le_refl 0) (min_le_min (le_refl 100) h)

theorem roundTenths_mono {a b : Int} (h : a ≤ b) :
    roundTenths a ≤ roundTenths b := by
  unfold roundTenths
  split_ifs <;> omega

theorem clamp_roundTenths_mono {a b : Int} (h : a ≤ b) :
    clamp (roundTenths a) ≤ clamp (roundTenths b) :=
  clamp_mono (roundTenths_mono h)

/-! Preservation of the [0,100] invariant. -/

theorem InRange_setKey (s : Stats) (k : String) (v : Int) (hs : InRange s)
    (h0 : 0 ≤ v) (h1 : v ≤ 100) : InRange (setKey s k v) := by
  intro p hp
  cases mem_setKey s k v p hp with
  | inl h => rw [h]; exact ⟨h0, h1⟩
  | inr h => exact hs p h

theorem InRange_applyOne (s : Stats) (k : String) (d : Int) (hs : InRange s) :
    InRange (applyOne s k d) := by
  unfold applyOne
  have h1 : InRange (if (getKey s k).isSome then s else setKey s k 50) := by
    split_ifs
    · exact hs
    · exact InRange_setKey s k 50 hs (by norm_num) (by norm_num)
  exact InRange_setKey _ k _ h1 (clamp_range _).1 (clamp_range _).2

theorem InRange_applyEffects (effects : List (String × Int)) (s : Stats)
    (hs : InRange s) : InRange (applyEffects s effects) := by
  induction effects generalizing s with
  | nil => exact hs
  | cons p rest ih =>
    simp only [applyEffects, List.foldl] at ih ⊢
    exact ih _ (InRange_applyOne s p.1 p.2 hs)

/-- C1: every stat value present in the result of `apply_action`, and
in the result of `passive_time_advance` whenever it returns a vector,
lies in [0,100], for any stat vector satisfying the StatVector
invariant, any action name and any phase. -/
theorem stats_bounds_invariant (stats : Stats) (hs : InRange stats)
    (action_name phase : String) :
    InRange (apply_action stats action_name) ∧
    ∀ out, passive_time_advance stats phase = some out → InRange out := by
  constructor
  · unfold apply_action
    cases hA : getKey ACTIONS action_name with
    | none => exact hs
    | some effects => exact InRange_applyEffects effects stats hs
  · intro out hout
    unfold passive_time_advance at hout
    split_ifs at hout
    · cases hH : getKey stats "Hunger" with
      | none => rw [hH] at hout; cases hout
      | some h =>
        rw [hH] at hout
        simp only [] at hout
        have hs1 : InRange (setKey stats "Hunger" (clamp (h - 12))) :=
          InRange_setKey _ _ _ hs (clamp_range _).1 (clamp_range _).2
        cases hE : getKey (setKey stats "Hunger" (clamp (h - 12))) "Energy" with
        | none => rw [hE] at hout; cases hout
        | some e =>
          rw [hE] at hout
          simp only [] at hout
          have hs2 : InRange (setKey (setKey stats "Hunger" (clamp (h - 12)))
              "Energy" (clamp (e - 10))) :=
            InRange_setKey _ _ _ hs1 (clamp_range _).1 (clamp_range _).2
          cases hT : getKey (setKey (setKey stats "Hunger" (clamp (h - 12)))
              "Energy" (clamp (e - 10))) "Stress" with
          | none => rw [hT] at hout; cases hout
          | some t =>
            rw [hT] at hout
            cases hout
            exact InRange_setKey _ _ _ hs2 (clamp_range _).1 (clamp_range _).2
    · cases hH : getKey stats "Hunger" with
      | none => rw [hH] at hout; cases hout
      | some h =>
        rw [hH] at hout
        simp only [] at hout
        have hs1 : InRange (setKey stats "Hunger" (clamp (h - 18))) :=
          InRange_setKey _ _ _ hs (clamp_range _).1 (clamp_range _).2
        cases hE : getKey (setKey stats "Hunger" (clamp (h - 18))) "Energy" with
        | none => rw [hE] at hout; cases hout
        | some e =>
          rw [hE] at hout
          simp only [] at hout
          have hs2 : InRange (setKey (setKey stats "Hunger" (clamp (h - 18)))
              "Energy" (clamp (e - 16))) :=
            InRange_setKey _ _ _ hs1 (clamp_range _).1 (clamp_range _).2
          cases hT : getKey (setKey (setKey stats "Hunger" (clamp (h - 18)))
              "Energy" (clamp (e - 16))) "Stress" with
          | none => rw [hT] at hout; cases hout
          | some t =>
            rw [hT] at hout
            cases hout
            exact InRange_setKey _ _ _ hs2 (clamp_range _).1 (clamp_range _).2
    · cases hH : getKey stats "Hunger" with
      | none => rw [hH] at hout; cases hout
      | some h =>
        rw [hH] at hout
        simp only [] at hout
        have hs1 : InRange (setKey stats "Hunger" (clamp (h - 8))) :=
          InRange_setKey _ _ _ hs (clamp_range _).1 (clamp_range _).2
        cases hE : getKey (setKey stats "Hunger" (clamp (h - 8))) "Energy" with
        | none => rw [hE] at hout; cases hout
        | some e =>
          rw [hE] at hout
          simp only [] at hout
          have hs2 : InRange (setKey (setKey stats "Hunger" (clamp (h - 8)))
              "Energy" (clamp (e - 8))) :=
            InRange_setKey _ _ _ hs1 (clamp_range _).1 (clamp_range _).2
          cases hT : getKey (setKey (setKey stats "Hunger" (clamp (h - 8)))
              "Energy" (clamp (e - 8))) "Stress" with
          | none => rw [hT] at hout; cases hout
          | some t =>
            rw [hT] at hout
            cases hout
            exact InRange_setKey _ _ _ hs2 (clamp_range _).1 (clamp_range _).2
    · cases hE : getKey stats "Energy" with
      | none => rw [hE] at hout; cases hout
      | some e =>
        rw [hE] at hout
        simp only [] at hout
        have hs1 : InRange (setKey stats "Energy" (clamp (e + 4))) :=
          InRange_setKey _ _ _ hs (clamp_range _).1 (clamp_range _).2
        cases hT : getKey (setKey stats "Energy" (clamp (e + 4))) "Stress" with
        | none => rw [hT] at hout; cases hout
        | some t =>
          rw [hT] at hout
          cases hout
          exact InRange_setKey _ _ _ hs1 (clamp_range _).1 (clamp_range _).2
    · cases hout
      exact hs

/-- Witness for C1 at the default stats, the Sleep action and the
Evening phase. -/
theorem stats_bounds_invariant_witness :
    InRange (apply_action DEFAULT_STATS "Sleep (Nap / Sleep)") ∧
    InRange [("Sleep", 80), ("Energy", 64), ("Hunger", 32),
             ("Stress", 26), ("Routine", 70), ("Social", 50)] := by
  have H := stats_bounds_invariant DEFAULT_STATS (by decide)
    "Sleep (Nap / Sleep)" "Evening"
  exact ⟨H.1, H.2 _ rfl⟩

theorem clamp_getD_of_inRange (stats : Stats) (k : String)
    (h : InRange stats) :
    clamp ((getKey stats k).getD 50) = (getKey stats k).getD 50 := by
  cases hk : getKey stats k with
  | none =>
    rw [Option.getD_none]
    exact clamp_eq_self 50 (by norm_num) (by norm_num)
  | some v =>
    rw [Option.getD_some]
    have hv := h (k, v) (getKey_mem stats k v hk)
    exact clamp_eq_self v hv.1 hv.2

/-- C2: on any stat vector satisfying the StatVector invariant,
`compute_lifestyle_stability` returns exactly the specification
formula — the average of Sleep, Energy, Hunger, Routine and Social
minus half of Stress, with missing keys defaulting to 50 — and the
result is an integer in [0,100]. -/
theorem stability_formula_spec (stats : Stats) (hs : InRange stats) :
    compute_lifestyle_stability stats = computeStabilitySpec stats ∧
    0 ≤ compute_lifestyle_stability stats ∧
    compute_lifestyle_stability stats ≤ 100 := by
  refine ⟨?_, ?_, ?_⟩
  · simp only [compute_lifestyle_stability, computeStabilitySpec,
      clamp_getD_of_inRange _ _ hs]
  · simp only [compute_lifestyle_stability]
    exact (clamp_range _).1
  · simp only [compute_lifestyle_stability]
    exact (clamp_range _).2

/-- Witness for C2 at a vector with four missing keys. -/
theorem stability_formula_spec_witness :
    compute_lifestyle_stability [("Sleep", 95), ("Stress", 33)] =
      computeStabilitySpec [("Sleep", 95), ("Stress", 33)] ∧
    0 ≤ compute_lifestyle_stability [("Sleep", 95), ("Stress", 33)] ∧
    compute_lifestyle_stability [("Sleep", 95), ("Stress", 33)] ≤ 100 :=
  stability_formula_spec [("Sleep", 95), ("Stress", 33)] (by decide)

/-- C3: `passive_time_advance` applies exactly the phase delta table
(Day: Hunger −12, Energy −10, Stress +4; Evening: Hunger −18,
Energy −16, Stress +6; Night: Hunger −8, Energy −8, Stress +2;
Morning: Energy +4, Stress −2, Hunger untouched), clamps each updated
field, leaves every other stat unchanged, and on the default vector
the Evening phase yields Hunger 32, Energy 64, Stress 26 with the
other stats unchanged. -/
theorem passive_drift_table (stats : Stats) (h e t : Int)
    (hH : getKey stats "Hunger" = some h)
    (hE : getKey stats "Energy" = some e)
    (hT : getKey stats "Stress" = some t) :
    (∃ s, passive_time_advance stats "Day" = some s ∧
      getKey s "Hunger" = some (clamp (h - 12)) ∧
      getKey s "Energy" = some (clamp (e - 10)) ∧
      getKey s "Stress" = some (clamp (t + 4)) ∧
      ∀ k, k ≠ "Hunger" → k ≠ "Energy" → k ≠ "Stress" →
        getKey s k = getKey stats k) ∧
    (∃ s, passive_time_advance stats "Evening" = some s ∧
      getKey s "Hunger" = some (clamp (h - 18)) ∧
      getKey s "Energy" = some (clamp (e - 16)) ∧
      getKey s "Stress" = some (clamp (t + 6)) ∧
      ∀ k, k ≠ "Hunger" → k ≠ "Energy" → k ≠ "Stress" →
        getKey s k = getKey stats k) ∧
    (∃ s, passive_time_advance stats "Night" = some s ∧
      getKey s "Hunger" = some (clamp (h - 8)) ∧
      getKey s "Energy" = some (clamp (e - 8)) ∧
      getKey s "Stress" = some (clamp (t + 2)) ∧
      ∀ k, k ≠ "Hunger" → k ≠ "Energy" → k ≠ "Stress" →
        getKey s k = getKey stats k) ∧
    (∃ s, passive_time_advance stats "Morning" = some s ∧
      getKey s "Hunger" = some h ∧
      getKey s "Energy" = some (clamp (e + 4)) ∧
      getKey s "Stress" = some (clamp (t - 2)) ∧
      ∀ k, k ≠ "Energy" → k ≠ "Stress" →
        getKey s k = getKey stats k) ∧
    passive_time_advance DEFAULT_STATS "Evening" =
      some [("Sleep", 80), ("Energy", 64), ("Hunger", 32),
            ("Stress", 26), ("Routine", 70), ("Social", 50)] := by
  have hE1 : ∀ a : Int, getKey (setKey stats "Hunger" a) "Energy" = some e :=
    fun a => by rw [getKey_setKey_ne _ _ _ _ (by decide), hE]
  have hT1 : ∀ a b : Int,
      getKey (setKey (setKey stats "Hunger" a) "Energy" b) "Stress" = some t :=
    fun a b => by
      rw [getKey_setKey_ne _ _ _ _ (by decide),
        getKey_setKey_ne _ _ _ _ (by decide), hT]
  have hT2 : ∀ b : Int, getKey (setKey stats "Energy" b) "Stress" = some t :=
    fun b => by rw [getKey_setKey_ne _ _ _ _ (by decide), hT]
  refine ⟨⟨setKey (setKey (setKey stats "Hunger" (clamp (h - 12)))
      "Energy" (clamp (e - 10))) "Stress" (clamp (t + 4)), ?_, ?_, ?_, ?_, ?_⟩,
    ⟨setKey (setKey (setKey stats "Hunger" (clamp (h - 18)))
      "Energy" (clamp (e - 16))) "Stress" (clamp (t + 6)), ?_, ?_, ?_, ?_, ?_⟩,
    ⟨setKey (setKey (setKey stats "Hunger" (clamp (h - 8)))
      "Energy" (clamp (e - 8))) "Stress" (clamp (t + 2)), ?_, ?_, ?_, ?_, ?_⟩,
    ⟨setKey (setKey stats "Energy" (clamp (e + 4)))
      "Stress" (clamp (t - 2)), ?_, ?_, ?_, ?_, ?_⟩, by decide⟩
  · simp only [passive_time_advance, String.reduceEq, reduceIte, hH, hE1, hT1]
  · rw [getKey_setKey_ne _ _ _ _ (by decide),
      getKey_setKey_ne _ _ _ _ (by decide), getKey_setKey_self]
  · rw [getKey_setKey_ne _ _ _ _ (by decide), getKey_setKey_self]
  · rw [getKey_setKey_self]
  · intro k hk1 hk2 hk3
    rw [getKey_setKey_ne _ _ _ _ hk3, getKey_setKey_ne _ _ _ _ hk2,
      getKey_setKey_ne _ _ _ _ hk1]
  · simp only [passive_time_advance, String.reduceEq, reduceIte, hH, hE1, hT1]
  · rw [getKey_setKey_ne _ _ _ _ (by decide),
      getKey_setKey_ne _ _ _ _ (by decide), getKey_setKey_self]
  · rw [getKey_setKey_ne _ _ _ _ (by decide), getKey_setKey_self]
  · rw [getKey_setKey_self]
  · intro k hk1 hk2 hk3
    rw [getKey_setKey_ne _ _ _ _ hk3, getKey_setKey_ne _ _ _ _ hk2,
      getKey_setKey_ne _ _ _ _ hk1]
  · simp only [passive_time_advance, String.reduceEq, reduceIte, hH, hE1, hT1]
  · rw [getKey_setKey_ne _ _ _ _ (by decide),
      getKey_setKey_ne _ _ _ _ (by decide), getKey_setKey_self]
  · rw [getKey_setKey_ne _ _ _ _ (by decide), getKey_setKey_self]
  · rw [getKey_setKey_self]
  · intro k hk1 hk2 hk3
    rw [getKey_setKey_ne _ _ _ _ hk3, getKey_setKey_ne _ _ _ _ hk2,
      getKey_setKey_ne _ _ _ _ hk1]
  · simp only [passive_time_advance, String.reduceEq, reduceIte, hE, hT2]
  · rw [getKey_setKey_ne _ _ _ _ (by decide),
      getKey_setKey_ne _ _ _ _ (by decide), hH]
  · rw [getKey_setKey_ne _ _ _ _ (by decide), getKey_setKey_self]
  · rw [getKey_setKey_self]
  · intro k hk1 hk2
    rw [getKey_setKey_ne _ _ _ _ hk2, getKey_setKey_ne _ _ _ _ hk1]

/-- Witness for C3 at the default stats: the Evening scenario. -/
theorem passive_drift_table_witness :
    passive_time_advance DEFAULT_STATS "Evening" =
      some [("Sleep", 80), ("Energy", 64), ("Hunger", 32),
            ("Stress", 26), ("Routine", 70), ("Social", 50)] :=
  (passive_drift_table DEFAULT_STATS 50 80 20 (by decide) (by decide)
    (by decide)).2.2.2.2

/-- C4: an action name that is not the name of any catalog action
leaves every stat vector unchanged — the unknown action is a silent
no-op, with no error signalled. -/
theorem unknown_action_noop (stats : Stats) (name : String)
    (h : ∀ p ∈ ACTIONS, p.1 ≠ name) :
    apply_action stats name = stats := by
  unfold apply_action
  rw [getKey_eq_none_of_forall_ne ACTIONS name h]

/-- Witness for C4 at the default stats and the name "nonexistent". -/
theorem unknown_action_noop_witness :
    apply_action DEFAULT_STATS "nonexistent" = DEFAULT_STATS :=
  unknown_action_noop DEFAULT_STATS "nonexistent" (by decide)

/-- C5: `get_life_rank` is the top-down threshold ladder, first match
wins: score ≥ 90 is Balanced, then ≥ 70 Stable, then ≥ 50 Unsettled,
then ≥ 30 Strained, and anything lower is Burned Out. -/
theorem rank_threshold_ladder (score : Int) :
    (90 ≤ score → get_life_rank score = "🟢 Balanced") ∧
    (70 ≤ score → score < 90 → get_life_rank score = "🟡 Stable") ∧
    (50 ≤ score → score < 70 → get_life_rank score = "🟠 Unsettled") ∧
    (30 ≤ score → score < 50 → get_life_rank score = "🔴 Strained") ∧
    (score < 30 → get_life_rank score = "⚫ Burned Out") := by
  unfold get_life_rank
  refine ⟨?_, ?_, ?_, ?_, ?_⟩ <;> intros <;> split_ifs <;>
    first | rfl | omega

/-- Witness for C5 at one score per rung of the ladder. -/
theorem rank_threshold_ladder_witness :
    get_life_rank 95 = "🟢 Balanced" ∧ get_life_rank 70 = "🟡 Stable" ∧
    get_life_rank 50 = "🟠 Unsettled" ∧ get_life_rank 30 = "🔴 Strained" ∧
    get_life_rank 29 = "⚫ Burned Out" :=
  ⟨(rank_threshold_ladder 95).1 (by decide),
   (rank_threshold_ladder 70).2.1 (by decide) (by decide),
   (rank_threshold_ladder 50).2.2.1 (by decide) (by decide),
   (rank_threshold_ladder 30).2.2.2.1 (by decide) (by decide),
   (rank_threshold_ladder 29).2.2.2.2 (by decide)⟩

/-- C6: `buddy_suggestion` is the priority chain, first match wins:
stability < 30 gives burnout, then Hunger < 30 hungry, then
Energy < 35 low energy, then Stress > 70 high stress, then
Routine < 40 low routine, then Social < 30 low social, otherwise
all good. -/
theorem buddy_priority_chain (stats : Stats) (stability h e t r so : Int)
    (hH : getKey stats "Hunger" = some h)
    (hE : getKey stats "Energy" = some e)
    (hT : getKey stats "Stress" = some t)
    (hR : getKey stats "Routine" = some r)
    (hS : getKey stats "Social" = some so) :
    (stability < 30 →
      buddy_suggestion stats stability = some (msg "burnout")) ∧
    (30 ≤ stability → h < 30 →
      buddy_suggestion stats stability = some (msg "hungry")) ∧
    (30 ≤ stability → 30 ≤ h → e < 35 →
      buddy_suggestion stats stability = some (msg "low_energy")) ∧
    (30 ≤ stability → 30 ≤ h → 35 ≤ e → 70 < t →
      buddy_suggestion stats stability = some (msg "high_stress")) ∧
    (30 ≤ stability → 30 ≤ h → 35 ≤ e → t ≤ 70 → r < 40 →
      buddy_suggestion stats stability = some (msg "low_routine")) ∧
    (30 ≤ stability → 30 ≤ h → 35 ≤ e → t ≤ 70 → 40 ≤ r → so < 30 →
      buddy_suggestion stats stability = some (msg "low_social")) ∧
    (30 ≤ stability → 30 ≤ h → 35 ≤ e → t ≤ 70 → 40 ≤ r → 30 ≤ so →
      buddy_suggestion stats stability = some (msg "all_good")) := by
  simp only [buddy_suggestion, hH, hE, hT, hR, hS]
  refine ⟨?_, ?_, ?_, ?_, ?_, ?_, ?_⟩ <;> intros <;> split_ifs <;>
    first | rfl | omega

/-- Witness for C6: Hunger 20 with stability 50 yields the hungry
message. -/
theorem buddy_priority_chain_witness :
    buddy_suggestion [("Sleep", 80), ("Energy", 80), ("Hunger", 20),
      ("Stress", 20), ("Routine", 70), ("Social", 50)] 50 =
      some (msg "hungry") :=
  (buddy_priority_chain _ 50 20 80 20 70 50 (by decide) (by decide)
    (by decide) (by decide) (by decide)).2.1 (by decide) (by decide)

/-- C7: from the default stats, the catalog action named
"Sleep (Nap / Sleep)" has effects Sleep +20, Energy +25, Stress −12;
applying it yields Sleep 100, Energy 100, Hunger 50, Stress 8,
Routine 70, Social 50; the stability of the result is 70, which ranks
as Stable. -/
theorem sleep_scenario_end_to_end :
    getKey ACTIONS "Sleep (Nap / Sleep)" =
      some [("Sleep", 20), ("Energy", 25), ("Stress", -12)] ∧
    apply_action DEFAULT_STATS "Sleep (Nap / Sleep)" =
      [("Sleep", 100), ("Energy", 100), ("Hunger", 50), ("Stress", 8),
       ("Routine", 70), ("Social", 50)] ∧
    compute_lifestyle_stability
      (apply_action DEFAULT_STATS "Sleep (Nap / Sleep)") = 70 ∧
    get_life_rank (compute_lifestyle_stability
      (apply_action DEFAULT_STATS "Sleep (Nap / Sleep)")) = "🟡 Stable" := by
  decide

/-- C8: `compute_lifestyle_stability` is monotone in each stat,
holding the others fixed: raising any of Sleep, Energy, Hunger,
Routine or Social never lowers the score, and raising Stress never
raises it. -/
theorem stability_monotone (stats : Stats) (v v' : Int) (hv : v ≤ v') :
    (∀ k ∈ (["Sleep", "Energy", "Hunger", "Routine", "Social"] :
        List String),
      compute_lifestyle_stability (setKey stats k v) ≤
        compute_lifestyle_stability (setKey stats k v')) ∧
    compute_lifestyle_stability (setKey stats "Stress" v') ≤
      compute_lifestyle_stability (setKey stats "Stress" v) := by
  have hc := clamp_mono hv
  constructor
  · intro k hk
    fin_cases hk <;>
      simp only [compute_lifestyle_stability, getKey_setKey,
        String.reduceEq, reduceIte, Option.getD_some] <;>
      exact clamp_roundTenths_mono (by omega)
  · simp only [compute_lifestyle_stability, getKey_setKey,
      String.reduceEq, reduceIte, Option.getD_some]
    exact clamp_roundTenths_mono (by omega)

/-- Witness for C8: raising Sleep raises the score, raising Stress
lowers it, on the default stats. -/
theorem stability_monotone_witness :
    compute_lifestyle_stability (setKey DEFAULT_STATS "Sleep" 10) ≤
      compute_lifestyle_stability (setKey DEFAULT_STATS "Sleep" 90) ∧
    compute_lifestyle_stability (setKey DEFAULT_STATS "Stress" 90) ≤
      compute_lifestyle_stability (setKey DEFAULT_STATS "Stress" 10) :=
  ⟨(stability_monotone DEFAULT_STATS 10 90 (by decide)).1 "Sleep"
      (by decide),
   (stability_monotone DEFAULT_STATS 10 90 (by decide)).2⟩

/-- C9: `get_life_rank` and `buddy_suggestion` are total on scores in
[0,100]: the rank is always one of the five category labels, and the
suggestion always returns a message when the five stats it may read
are present. -/
theorem rank_buddy_total (score : Int) (stats : Stats)
    (_h0 : 0 ≤ score) (_h1 : score ≤ 100)
    (hH : (getKey stats "Hunger").isSome = true)
    (hE : (getKey stats "Energy").isSome = true)
    (hT : (getKey stats "Stress").isSome = true)
    (hR : (getKey stats "Routine").isSome = true)
    (hS : (getKey stats "Social").isSome = true) :
    get_life_rank score ∈ ["🟢 Balanced", "🟡 Stable", "🟠 Unsettled",
      "🔴 Strained", "⚫ Burned Out"] ∧
    (buddy_suggestion stats score).isSome = true := by
  constructor
  · unfold get_life_rank
    split_ifs <;> simp
  · obtain ⟨h, hh⟩ := Option.isSome_iff_exists.mp hH
    obtain ⟨e, he⟩ := Option.isSome_iff_exists.mp hE
    obtain ⟨t, ht⟩ := Option.isSome_iff_exists.mp hT
    obtain ⟨r, hr⟩ := Option.isSome_iff_exists.mp hR
    obtain ⟨so, hs2⟩ := Option.isSome_iff_exists.mp hS
    simp only [buddy_suggestion, hh, he, ht, hr, hs2]
    split_ifs <;> rfl

/-- Witness for C9 at score 55 and the default stats. -/
theorem rank_buddy_total_witness :
    get_life_rank 55 ∈ ["🟢 Balanced", "🟡 Stable", "🟠 Unsettled",
      "🔴 Strained", "⚫ Burned Out"] ∧
    (buddy_suggestion DEFAULT_STATS 55).isSome = true :=
  rank_buddy_total 55 DEFAULT_STATS (by decide) (by decide) (by decide)
    (by decide) (by decide) (by decide) (by decide)

/-! Lemmas about the effects loop for C10. -/

theorem getKey_applyOne_ne (s : Stats) (k : String) (d : Int) (k' : String)
    (h : k' ≠ k) : getKey (applyOne s k d) k' = getKey s k' := by
  unfold applyOne
  split_ifs
  · rw [getKey_setKey_ne _ _ _ _ h]
  · rw [getKey_setKey_ne _ _ _ _ h, getKey_setKey_ne _ _ _ _ h]

theorem getKey_applyOne_missing (s : Stats) (k : String) (d : Int)
    (h : getKey s k = none) :
    getKey (applyOne s k d) k = some (clamp (50 + d)) := by
  unfold applyOne
  rw [h]
  simp only [Option.isSome_none, Bool.false_eq_true, if_false,
    getKey_setKey_self, Option.getD_some]

theorem getKey_applyEffects_notMem (effects : List (String × Int))
    (s : Stats) (k : String) (h : k ∉ keysOf effects) :
    getKey (applyEffects s effects) k = getKey s k := by
  induction effects generalizing s with
  | nil => rfl
  | cons p rest ih =>
    simp only [keysOf, List.map_cons, List.mem_cons, not_or] at h
    have step : applyEffects s (p :: rest) =
        applyEffects (applyOne s p.1 p.2) rest := rfl
    rw [step, ih _ (by simpa [keysOf] using h.2),
      getKey_applyOne_ne s p.1 p.2 k h.1]

theorem getKey_applyEffects_missing (effects : List (String × Int))
    (s : Stats) (k : String) (d : Int) (hnd : (keysOf effects).Nodup)
    (hmem : (k, d) ∈ effects) (h : getKey s k = none) :
    getKey (applyEffects s effects) k = some (clamp (50 + d)) := by
  induction effects generalizing s with
  | nil => cases hmem
  | cons p rest ih =>
    obtain ⟨pk, pd⟩ := p
    have step : applyEffects s ((pk, pd) :: rest) =
        applyEffects (applyOne s pk pd) rest := rfl
    rw [step]
    simp only [keysOf, List.map_cons, List.nodup_cons] at hnd
    rcases List.mem_cons.mp hmem with heq | hmem2
    · injection heq with hk1 hd1
      subst hk1
      subst hd1
      rw [getKey_applyEffects_notMem rest _ k (by simpa [keysOf] using hnd.1)]
      exact getKey_applyOne_missing s k d h
    · have hkrest : k ∈ keysOf rest := by
        simp only [keysOf]
        exact List.mem_map_of_mem Prod.fst hmem2
      have hk1 : k ≠ pk := by
        intro hh
        subst hh
        exact hnd.1 (by simpa [keysOf] using hkrest)
      exact ih _ (by simpa [keysOf] using hnd.2) hmem2
        (by rw [getKey_applyOne_ne s pk pd k hk1]; exact h)

theorem actions_effects_keys_nodup (name : String)
    (effects : List (String × Int))
    (h : getKey ACTIONS name = some effects) : (keysOf effects).Nodup := by
  simp only [ACTIONS, getKey] at h
  split_ifs at h <;> first
    | exact Option.noConfusion h
    | (injection h with h2; rw [← h2]; decide)

/-- C10: for a catalog action and a stat vector missing one of the
keys the action's effect map mentions, `apply_action` first inserts
the missing key with value 50 and then applies the delta, so the
returned vector maps that key to `clamp (50 + delta)`; a missing key
the action does not mention stays absent. -/
theorem apply_action_missing_key_default (stats : Stats) (name : String)
    (effects : List (String × Int))
    (hA : getKey ACTIONS name = some effects) :
    (∀ k d, (k, d) ∈ effects → getKey stats k = none →
      getKey (apply_action stats name) k = some (clamp (50 + d))) ∧
    (∀ k, k ∉ keysOf effects → getKey stats k = none →
      getKey (apply_action stats name) k = none) := by
  have hact : apply_action stats name = applyEffects stats effects := by
    unfold apply_action
    rw [hA]
  constructor
  · intro k d hmem hnone
    rw [hact]
    exact getKey_applyEffects_missing effects stats k d
      (actions_effects_keys_nodup name effects hA) hmem hnone
  · intro k hk hnone
    rw [hact, getKey_applyEffects_notMem effects stats k hk]
    exact hnone

/-- Witness for C10: a vector holding only Sleep, under the Sleep
action: the missing Energy key becomes clamp(50 + 25) = 75, and the
unmentioned Hunger key stays absent. -/
theorem apply_action_missing_key_default_witness :
    getKey (apply_action [("Sleep", 80)] "Sleep (Nap / Sleep)") "Energy" =
      some (clamp (50 + 25)) ∧
    getKey (apply_action [("Sleep", 80)] "Sleep (Nap / Sleep)") "Hunger" =
      none :=
  ⟨(apply_action_missing_key_default [("Sleep", 80)] "Sleep (Nap / Sleep)"
      [("Sleep", 20), ("Energy", 25), ("Stress", -12)] (by decide)).1
      "Energy" 25 (by decide) (by decide),
   (apply_action_missing_key_default [("Sleep", 80)] "Sleep (Nap / Sleep)"
      [("Sleep", 20), ("Energy", 25), ("Stress", -12)] (by decide)).2
      "Hunger" (by decide) (by decide)⟩

end BlueShirt
